import Mathlib

/-!
Shallow embedding of the Vendoa POS core: the Pagination component's page-number
generator, the client-side checkout gate of the POS page, the client-side credit
payment form, and the checkout transaction engine described by the specification
(the server-side sales route itself is not among the provided sources, so the
engine, the stock/credit ledger primitives and receipt numbering are modelled
from the spec, as flagged on each definition).
-/

namespace Vendoa

/-! ## Pagination component (`getPageNumbers`, src/unnamed/part_002) -/

/-- An entry of the page list rendered by the Pagination component: either a
numbered page button or a literal ellipsis separator (the string entries). -/
inductive PageEntry where
  | num (n : Nat)
  | dots
deriving DecidableEq, Repr

/-- One iteration of the `if (!pages.includes(i)) pages.push(i)` loop body of
`getPageNumbers`. -/
def pushIfAbsent (pages : List PageEntry) (i : Nat) : List PageEntry :=
  if PageEntry.num i ∈ pages then pages else pages ++ [PageEntry.num i]

/-- The `getPageNumbers` helper of the Pagination component: all pages when
`totalPages ≤ 5` (the component's `maxVisiblePages`); otherwise page 1, an
ellipsis when `currentPage > 3`, the window `max 2 (currentPage-1)` to
`min (totalPages-1) (currentPage+1)`, an ellipsis when
`currentPage < totalPages - 2`, and the last page. -/
def getPageNumbers (totalPages currentPage : Nat) : List PageEntry :=
  if totalPages ≤ 5 then
    (List.range' 1 totalPages).map PageEntry.num
  else
    let pages0 : List PageEntry := [PageEntry.num 1]
    let pages1 := if 3 < currentPage then pages0 ++ [PageEntry.dots] else pages0
    let s := max 2 (currentPage - 1)
    let e := min (totalPages - 1) (currentPage + 1)
    let pages2 := (List.range' s (e + 1 - s)).foldl pushIfAbsent pages1
    let pages3 :=
      if currentPage < totalPages - 2 then pages2 ++ [PageEntry.dots] else pages2
    pushIfAbsent pages3 totalPages

/-- The numeric entries of a page list, in display order. -/
def numsOf : List PageEntry → List Nat
  | [] => []
  | PageEntry.num n :: rest => n :: numsOf rest
  | PageEntry.dots :: rest => numsOf rest

theorem numsOf_append (a b : List PageEntry) :
    numsOf (a ++ b) = numsOf a ++ numsOf b := by
  induction a with
  | nil => rfl
  | cons x rest ih => cases x <;> simp [numsOf, ih]

theorem num_mem_iff (n : Nat) (l : List PageEntry) :
    PageEntry.num n ∈ l ↔ n ∈ numsOf l := by
  induction l with
  | nil => simp [numsOf]
  | cons x rest ih => cases x <;> simp [numsOf, ih]

theorem numsOf_map_num (l : List Nat) : numsOf (l.map PageEntry.num) = l := by
  induction l with
  | nil => rfl
  | cons x rest ih => simp [numsOf, ih]

theorem foldl_pushIfAbsent (l : List Nat) (pages : List PageEntry)
    (hnd : l.Nodup) (h : ∀ i ∈ l, PageEntry.num i ∉ pages) :
    l.foldl pushIfAbsent pages = pages ++ l.map PageEntry.num := by
  induction l generalizing pages with
  | nil => simp
  | cons a t ih =>
    rcases List.nodup_cons.mp hnd with ⟨hna, hnt⟩
    have ha : PageEntry.num a ∉ pages := h a (List.mem_cons_self a t)
    have step : pushIfAbsent pages a = pages ++ [PageEntry.num a] := by
      simp [pushIfAbsent, ha]
    rw [List.foldl_cons, step, ih (pages ++ [PageEntry.num a]) hnt]
    · simp
    · intro i hi hmem
      rcases List.mem_append.mp hmem with hip | hie
      · exact h i (List.mem_cons_of_mem _ hi) hip
      · have : i = a := by
          have := List.mem_singleton.mp hie
          exact PageEntry.num.injEq i a ▸ congrArg (fun x => x) (by cases this; rfl)
        exact hna (this ▸ hi)

theorem numsOf_pushIfAbsent (pages : List PageEntry) (i : Nat)
    (h : i ∉ numsOf pages) :
    numsOf (pushIfAbsent pages i) = numsOf pages ++ [i] := by
  unfold pushIfAbsent
  rw [if_neg (fun hmem => h ((num_mem_iff i pages).mp hmem))]
  rw [numsOf_append]
  rfl

theorem numsOf_getPageNumbers_large (tp cp : Nat) (h6 : 6 ≤ tp) (hc1 : 1 ≤ cp)
    (hc2tp : cp ≤ tp) :
    numsOf (getPageNumbers tp cp) =
      1 :: (List.range' (max 2 (cp - 1)) (min (tp - 1) (cp + 1) + 1 - max 2 (cp - 1))
        ++ [tp]) := by
  have hnot : ¬ tp ≤ 5 := by omega
  simp only [getPageNumbers, if_neg hnot]
  set s := max 2 (cp - 1) with hs
  set e := min (tp - 1) (cp + 1) with he
  set n := e + 1 - s with hn
  have hs2 : 2 ≤ s := by omega
  have hsn : s + n = e + 1 := by omega
  have hetp : e + 1 ≤ tp := by omega
  have hrn : (List.range' s n).Nodup := List.nodup_range' s n
  have hrmem : ∀ i ∈ List.range' s n, s ≤ i ∧ i < e + 1 := by
    intro i hi
    have := List.mem_range'_1.mp hi
    omega
  have hfold : ∀ pages : List PageEntry,
      (∀ i ∈ List.range' s n, PageEntry.num i ∉ pages) →
      (List.range' s n).foldl pushIfAbsent pages
        = pages ++ (List.range' s n).map PageEntry.num :=
    fun pages h => foldl_pushIfAbsent _ pages hrn h
  by_cases hc3 : 3 < cp <;> by_cases hclast : cp < tp - 2 <;>
    simp only [hc3, hclast, if_true, if_false, ite_true, ite_false] <;>
    rw [hfold _ (by
      intro i hi
      have hri := hrmem i hi
      simp
      omega)] <;>
    rw [numsOf_pushIfAbsent _ _ (by
      simp [numsOf_append, numsOf_map_num, numsOf]
      omega)] <;>
    simp [numsOf_append, numsOf_map_num, numsOf]

/-- C10: for every `totalPages ≥ 1` and `1 ≤ currentPage ≤ totalPages`, the page
list produced by `getPageNumbers` has strictly increasing (hence duplicate-free)
numeric entries, starts with page 1, ends with page `totalPages`, always contains
`currentPage`, and equals exactly `[1, …, totalPages]` whenever `totalPages ≤ 5`. -/
theorem getPageNumbers_spec (tp cp : Nat) (htp : 1 ≤ tp) (hcp1 : 1 ≤ cp)
    (hcp2 : cp ≤ tp) :
    List.Pairwise (· < ·) (numsOf (getPageNumbers tp cp)) ∧
    (numsOf (getPageNumbers tp cp)).head? = some 1 ∧
    (numsOf (getPageNumbers tp cp)).getLast? = some tp ∧
    cp ∈ numsOf (getPageNumbers tp cp) ∧
    (tp ≤ 5 → getPageNumbers tp cp = (List.range' 1 tp).map PageEntry.num) := by
  by_cases h5 : tp ≤ 5
  · have hdef : getPageNumbers tp cp = (List.range' 1 tp).map PageEntry.num := by
      simp [getPageNumbers, h5]
    rw [hdef, numsOf_map_num]
    refine ⟨List.pairwise_lt_range' 1 tp, ?_, ?_, ?_, fun _ => rfl⟩
    · rw [List.head?_range']
      exact if_neg (by omega)
    · rw [List.getLast?_range']
      simp only [if_neg (by omega : ¬ tp = 0)]
      congr 1
      omega
    · rw [List.mem_range'_1]
      omega
  · have h6 : 6 ≤ tp := by omega
    rw [numsOf_getPageNumbers_large tp cp h6 hcp1 hcp2]
    set s := max 2 (cp - 1) with hs
    set e := min (tp - 1) (cp + 1) with he
    set n := e + 1 - s with hn
    have hs2 : 2 ≤ s := by omega
    have hsn : s + n = e + 1 := by omega
    have hetp : e + 1 ≤ tp := by omega
    have hrmem : ∀ i ∈ List.range' s n, s ≤ i ∧ i < e + 1 := by
      intro i hi
      have := List.mem_range'_1.mp hi
      omega
    refine ⟨?_, rfl, ?_, ?_, fun h => absurd h h5⟩
    · rw [List.pairwise_cons]
      constructor
      · intro b hb
        rcases List.mem_append.mp hb with hb | hb
        · have := hrmem b hb
          omega
        · have := List.mem_singleton.mp hb
          omega
      · rw [List.pairwise_append]
        refine ⟨List.pairwise_lt_range' s n, List.pairwise_singleton _ _, ?_⟩
        intro a ha b hb
        have h1 := hrmem a ha
        have h2 := List.mem_singleton.mp hb
        omega
    · rw [show (1 : Nat) :: (List.range' s n ++ [tp])
          = (1 :: List.range' s n) ++ [tp] by simp]
      exact List.getLast?_concat _
    · simp only [List.mem_cons, List.mem_append, List.mem_singleton,
        List.mem_range'_1]
      omega

/-- Witness for `getPageNumbers_spec` at `totalPages = 7`, `currentPage = 4`. -/
theorem getPageNumbers_spec_witness :
    List.Pairwise (· < ·) (numsOf (getPageNumbers 7 4)) ∧
    (numsOf (getPageNumbers 7 4)).head? = some 1 ∧
    (numsOf (getPageNumbers 7 4)).getLast? = some 7 ∧
    4 ∈ numsOf (getPageNumbers 7 4) ∧
    (7 ≤ 5 → getPageNumbers 7 4 = (List.range' 1 7).map PageEntry.num) :=
  getPageNumbers_spec 7 4 (by decide) (by decide) (by decide)

/-! ## Data model (POS.tsx interfaces and spec §3)

Monetary amounts (prices, balances, limits, discounts, tendered amounts) are
modelled as exact integers (think centavos): the source manipulates exact
decimal amounts, and every claim is an ordering/arithmetic property invariant
under this representation. `Option Int` models a `parseFloat` result, `none`
standing for `NaN`. -/

instance {ε α : Type} [DecidableEq ε] [DecidableEq α] :
    DecidableEq (Except ε α) := fun a b =>
  match a, b with
  | Except.ok x, Except.ok y =>
    if h : x = y then isTrue (by rw [h])
    else isFalse (fun hc => h (by injection hc))
  | Except.error x, Except.error y =>
    if h : x = y then isTrue (by rw [h])
    else isFalse (fun hc => h (by injection hc))
  | Except.ok _, Except.error _ => isFalse (fun hc => Except.noConfusion hc)
  | Except.error _, Except.ok _ => isFalse (fun hc => Except.noConfusion hc)

/-- Payment methods offered by the POS checkout modal. -/
inductive PaymentMethod where
  | cash
  | card
  | e_wallet
  | credit
deriving DecidableEq, Repr

/-- A product row as the POS page and the catalog see it: id, unit price, cached
on-hand quantity, active flag (spec §3 Product). -/
structure Product where
  id : Nat
  price : Int
  stockQuantity : Int
  isActive : Bool
deriving DecidableEq, Repr

/-- A customer row: id, cached running credit balance, configured credit limit
(0 = unlimited), active flag (spec §3 Customer). -/
structure Customer where
  id : Nat
  creditBalance : Int
  creditLimit : Int
  isActive : Bool
deriving DecidableEq, Repr

/-- A cart line of the POS page's cart store: a product, a quantity and a
per-item discount. -/
structure CartItem where
  product : Product
  quantity : Nat
  discount : Int
deriving DecidableEq, Repr

/-- Modelled from the spec: the cart store (src/client/src/store/cartStore) is not
among the provided sources. Per §4.1 the subtotal before the sale-level discount is
`sum(quantity*price - perItemDiscount)`. -/
def getSubtotal (items : List CartItem) : Int :=
  (items.map fun it => (it.quantity : Int) * it.product.price - it.discount).sum

/-- Modelled from the spec: `total = sum(quantity*price - perItemDiscount) -
saleDiscount`, clamped to ≥ 0 (§4.1). -/
def getTotal (items : List CartItem) (saleDiscount : Int) : Int :=
  max (getSubtotal items - saleDiscount) 0

/-- One line of the POST /sales request body built by `checkoutMutation`
(POS.tsx lines 113-118). -/
structure SaleLineInput where
  productId : Nat
  quantity : Nat
  discount : Int
deriving DecidableEq, Repr

/-- The POST /sales request body built by `checkoutMutation` (POS.tsx lines
111-124). `amountPaid = none` models `NaN` from `parseFloat`; for credit the page
sends 0. -/
structure SalePayload where
  items : List SaleLineInput
  paymentMethod : PaymentMethod
  amountPaid : Option Int
  discount : Int
  customerId : Option Nat
deriving DecidableEq, Repr

/-- The request body `checkoutMutation` submits (POS.tsx lines 111-124): cart
lines mapped to `{productId, quantity, discount}`, `amountPaid` forced to 0 for
credit, and the selected customer's id. -/
def checkoutPayload (items : List CartItem) (paymentMethod : PaymentMethod)
    (amountPaid : Option Int) (discount : Int)
    (selectedCustomer : Option Customer) : SalePayload :=
  { items := items.map fun it => ⟨it.product.id, it.quantity, it.discount⟩
    paymentMethod := paymentMethod
    amountPaid := if paymentMethod = PaymentMethod.credit then some 0 else amountPaid
    discount := discount
    customerId := selectedCustomer.map Customer.id }

/-! ## Client-side checkout gate (POS.tsx) -/

/-- What confirming payment observably does: a toast error with no request, or a
POST /sales submission of the given payload. -/
inductive ConfirmResult where
  | toastError (msg : String)
  | submit (payload : SalePayload)
deriving DecidableEq, Repr

/-- The `handleConfirmPayment` handler (POS.tsx lines 196-227): for credit it
requires a selected customer and enforces the credit limit client-side; for
cash/card/e-wallet it requires a numeric `amountPaid ≥ total`; only then does it
fire `checkoutMutation`. -/
def handleConfirmPayment (items : List CartItem) (discount : Int)
    (amountPaid : Option Int) (paymentMethod : PaymentMethod)
    (selectedCustomer : Option Customer) : ConfirmResult :=
  let total := getTotal items discount
  if paymentMethod = PaymentMethod.credit then
    match selectedCustomer with
    | none => ConfirmResult.toastError "Please select a customer for credit payment"
    | some c =>
      if 0 < c.creditLimit ∧ c.creditLimit < c.creditBalance + total then
        ConfirmResult.toastError "Credit limit exceeded"
      else
        ConfirmResult.submit
          (checkoutPayload items paymentMethod amountPaid discount selectedCustomer)
  else
    match amountPaid with
    | none => ConfirmResult.toastError "Insufficient payment amount"
    | some paid =>
      if paid < total then ConfirmResult.toastError "Insufficient payment amount"
      else
        ConfirmResult.submit
          (checkoutPayload items paymentMethod amountPaid discount selectedCustomer)

/-- What clicking Checkout observably does: a toast error, or opening the payment
modal with `amountPaid` prefilled to the total. -/
inductive CheckoutClick where
  | toastError (msg : String)
  | showModal (prefillAmountPaid : Int)
deriving DecidableEq, Repr

/-- The `handleCheckout` handler (POS.tsx lines 187-194): an empty cart is
rejected with a toast before the payment modal ever opens. -/
def handleCheckout (items : List CartItem) (discount : Int) : CheckoutClick :=
  if items.isEmpty then CheckoutClick.toastError "Cart is empty"
  else CheckoutClick.showModal (getTotal items discount)

/-! ## Client-side credit payment form (Credits.tsx) -/

/-- What the record-payment button observably does: silently return when no
customer is selected, toast an error, or POST the payment. -/
inductive RecordPaymentResult where
  | noCustomerSelected
  | toastError (msg : String)
  | submitPayment (customerId : Nat) (amount : Int) (reference : Option String)
deriving DecidableEq, Repr

/-- The `handleRecordPayment` handler (Credits.tsx lines 168-180): refuses only a
non-numeric or non-positive amount; any positive amount is submitted, with no
upper bound against the customer's balance. -/
def handleRecordPayment (selectedCustomer : Option Customer)
    (paymentAmount : Option Int) (paymentReference : String) : RecordPaymentResult :=
  match selectedCustomer with
  | none => RecordPaymentResult.noCustomerSelected
  | some c =>
    match paymentAmount with
    | none => RecordPaymentResult.toastError "Please enter a valid amount"
    | some amount =>
      if amount ≤ 0 then RecordPaymentResult.toastError "Please enter a valid amount"
      else
        RecordPaymentResult.submitPayment c.id amount
          (if paymentReference = "" then none else some paymentReference)

/-! ## Checkout Transaction Engine and ledgers

The server-side sales route invoked by `checkoutMutation` (and the pay-credit and
stock routes) are not among the provided sources; the definitions below are
modelled from spec §§3-4.4 and §7, as flagged on each definition. -/

/-- Direction of a stock movement (spec §3 StockMovement). -/
inductive MovementDirection where
  | dirIn
  | dirOut
deriving DecidableEq, Repr

/-- Reason of a stock movement (spec §3 StockMovement); `ret` stands for the
spec's `return` reason. -/
inductive MovementReason where
  | purchase
  | sale
  | adjustment
  | damaged
  | theft
  | ret
deriving DecidableEq, Repr

/-- An immutable stock-ledger record (spec §3 StockMovement). -/
structure StockMovement where
  productId : Nat
  direction : MovementDirection
  quantity : Nat
  reason : MovementReason
deriving DecidableEq, Repr

/-- Type of a credit-ledger entry (spec §3 CreditTransaction). -/
inductive CreditTxType where
  | purchase
  | payment
  | adjustment
deriving DecidableEq, Repr

/-- An immutable credit-ledger record with its resulting balance snapshot
(spec §3 CreditTransaction). -/
structure CreditTransaction where
  customerId : Nat
  ctType : CreditTxType
  amount : Int
  balanceAfter : Int
  saleId : Option Nat
deriving DecidableEq, Repr

/-- A persisted sale line (spec §3 SaleItem). -/
structure SaleItem where
  productId : Nat
  quantity : Nat
  unitPrice : Int
  discount : Int
deriving DecidableEq, Repr

/-- A persisted, immutable sale record (spec §3 Sale). -/
structure Sale where
  saleId : Nat
  receiptNumber : Nat
  items : List SaleItem
  subtotal : Int
  discount : Int
  total : Int
  paymentMethod : PaymentMethod
  amountPaid : Int
  change : Int
  customerId : Option Nat
deriving DecidableEq, Repr

/-- The persistent state the checkout engine reads and writes: catalog rows,
customer rows, the three append-only stores, and the receipt counter. -/
structure StoreState where
  products : List Product
  customers : List Customer
  sales : List Sale
  movements : List StockMovement
  creditTxs : List CreditTransaction
  receiptCounter : Nat
deriving DecidableEq, Repr

/-- The error taxonomy of spec §7. -/
inductive CheckoutError where
  | validationError (msg : String)
  | insufficientStock (productId : Nat) (requested : Nat) (available : Int)
  | insufficientPayment (total : Int) (amountPaid : Option Int)
  | creditLimitExceeded (limit currentBalance total : Int)
  | customerRequired
  | productNotFound (id : Nat)
  | customerNotFound (id : Nat)
  | persistenceFailure
deriving DecidableEq, Repr

/-- Catalog lookup by product id (spec §6, read-only collaborator). -/
def findProduct (st : StoreState) (pid : Nat) : Option Product :=
  st.products.find? fun p => p.id == pid

/-- Customer lookup by id (spec §6, read-only collaborator). -/
def findCustomer (st : StoreState) (cid : Nat) : Option Customer :=
  st.customers.find? fun c => c.id == cid

/-- Adjusts the cached on-hand quantity of the product row(s) with the given id. -/
def adjustQuantity (ps : List Product) (pid : Nat) (delta : Int) : List Product :=
  ps.map fun p =>
    if p.id == pid then { p with stockQuantity := p.stockQuantity + delta } else p

/-- Modelled from the spec: the Stock Ledger primitive `postMovement` (§4.2), whose
server-side route is not among the provided sources. Appends an immutable record
and atomically updates the product's cached quantity; fails with `ProductNotFound`,
or with `InsufficientStock` when an `out` movement would drive the quantity
negative. -/
def postMovement (st : StoreState) (pid : Nat) (dir : MovementDirection)
    (qty : Nat) (reason : MovementReason) : Except CheckoutError StoreState :=
  match findProduct st pid with
  | none => Except.error (CheckoutError.productNotFound pid)
  | some p =>
    match dir with
    | MovementDirection.dirIn =>
      Except.ok { st with
        products := adjustQuantity st.products pid qty
        movements := st.movements ++ [⟨pid, dir, qty, reason⟩] }
    | MovementDirection.dirOut =>
      if p.stockQuantity - qty < 0 then
        Except.error (CheckoutError.insufficientStock pid qty p.stockQuantity)
      else
        Except.ok { st with
          products := adjustQuantity st.products pid (-(qty : Int))
          movements := st.movements ++ [⟨pid, dir, qty, reason⟩] }

/-- Modelled from the spec: the Credit Ledger primitive `postTransaction` (§4.3),
whose server-side route is not among the provided sources. Appends an immutable
record, computes the `balanceAfter` snapshot, and updates the customer's cached
balance; per §9 a `payment` silently clamps the balance at zero. -/
def postTransaction (st : StoreState) (c : Customer) (t : CreditTxType)
    (amount : Int) (saleId : Option Nat) : StoreState :=
  let newBalance :=
    match t with
    | CreditTxType.purchase => c.creditBalance + amount
    | CreditTxType.payment => max (c.creditBalance - amount) 0
    | CreditTxType.adjustment => c.creditBalance + amount
  { st with
    customers := st.customers.map fun x =>
      if x.id == c.id then { x with creditBalance := newBalance } else x
    creditTxs := st.creditTxs ++ [⟨c.id, t, amount, newBalance, saleId⟩] }

/-- Modelled from the spec: the pay-credit endpoint the Credits page posts to is
not among the provided sources. Refuses a non-positive amount, otherwise posts a
`payment` credit transaction (which clamps the balance at zero per §9). -/
def payCredit (st : StoreState) (cid : Nat) (amount : Int) :
    Except CheckoutError StoreState :=
  if amount ≤ 0 then Except.error (CheckoutError.validationError "invalid amount")
  else
    match findCustomer st cid with
    | none => Except.error (CheckoutError.customerNotFound cid)
    | some c => Except.ok (postTransaction st c CreditTxType.payment amount none)

/-- Modelled from the spec: per-line checkout validation (§4.1) — the product must
resolve and be active, the quantity must be positive, and the requested quantity
must not exceed the current on-hand quantity. -/
def validateLine (st : StoreState) (l : SaleLineInput) :
    Except CheckoutError Product :=
  match findProduct st l.productId with
  | none => Except.error (CheckoutError.productNotFound l.productId)
  | some p =>
    if p.isActive = false then
      Except.error (CheckoutError.productNotFound l.productId)
    else if l.quantity = 0 then
      Except.error (CheckoutError.validationError "non-positive quantity")
    else if p.stockQuantity < (l.quantity : Int) then
      Except.error (CheckoutError.insufficientStock l.productId l.quantity p.stockQuantity)
    else Except.ok p

/-- Modelled from the spec: fail-fast validation of every cart line against the
current state (§4.1), resolving each line to its product; the first failure wins. -/
def validateLines (st : StoreState) :
    List SaleLineInput → Except CheckoutError (List (SaleLineInput × Product))
  | [] => Except.ok []
  | l :: rest =>
    match validateLine st l with
    | Except.error e => Except.error e
    | Except.ok p =>
      match validateLines st rest with
      | Except.error e => Except.error e
      | Except.ok ps => Except.ok ((l, p) :: ps)

/-- Modelled from the spec: the computed sale total (§4.1),
`sum(quantity*price - perItemDiscount) - saleDiscount` clamped to ≥ 0. -/
def cartTotal (resolved : List (SaleLineInput × Product)) (saleDiscount : Int) : Int :=
  max ((resolved.map fun lp => (lp.1.quantity : Int) * lp.2.price - lp.1.discount).sum
    - saleDiscount) 0

/-- Modelled from the spec: the payment-method precondition (§4.1) — for credit
the customer must be supplied and active and pass the limit check; otherwise
`amountPaid` must be a number ≥ total. Returns the resolved customer for credit. -/
def checkPayment (st : StoreState) (p : SalePayload) (total : Int) :
    Except CheckoutError (Option Customer) :=
  if p.paymentMethod = PaymentMethod.credit then
    match p.customerId with
    | none => Except.error CheckoutError.customerRequired
    | some cid =>
      match findCustomer st cid with
      | none => Except.error (CheckoutError.customerNotFound cid)
      | some c =>
        if c.isActive = false then
          Except.error (CheckoutError.customerNotFound cid)
        else if 0 < c.creditLimit ∧ c.creditLimit < c.creditBalance + total then
          Except.error
            (CheckoutError.creditLimitExceeded c.creditLimit c.creditBalance total)
        else Except.ok (some c)
  else
    match p.amountPaid with
    | none => Except.error (CheckoutError.insufficientPayment total p.amountPaid)
    | some paid =>
      if paid < total then
        Except.error (CheckoutError.insufficientPayment total p.amountPaid)
      else Except.ok none

/-- Modelled from the spec: step 2 of the effect (§4.1) — one `sale`-reason,
`out`-direction stock posting per cart line, through the Stock Ledger primitive. -/
def applyLines (st : StoreState) :
    List SaleLineInput → Except CheckoutError StoreState
  | [] => Except.ok st
  | l :: rest =>
    match postMovement st l.productId MovementDirection.dirOut l.quantity
        MovementReason.sale with
    | Except.error e => Except.error e
    | Except.ok st' => applyLines st' rest

/-- Modelled from the spec: steps 1, 3, 4 of the effect (§4.1) — receipt number
from the monotone counter (§4.4), the `purchase` credit posting for a credit sale,
and the persisted Sale with `amountPaid` 0 for credit and
`change = max(amountPaid - total, 0)` (0 for credit). -/
def commitSale (st stMoved : StoreState) (p : SalePayload)
    (resolved : List (SaleLineInput × Product)) (total : Int)
    (customer : Option Customer) : StoreState × Sale :=
  let receipt := st.receiptCounter + 1
  let saleId := st.sales.length + 1
  let paid : Int :=
    if p.paymentMethod = PaymentMethod.credit then 0 else p.amountPaid.getD 0
  let change : Int :=
    if p.paymentMethod = PaymentMethod.credit then 0 else max (paid - total) 0
  let stCredit :=
    match customer with
    | some c => postTransaction stMoved c CreditTxType.purchase total (some saleId)
    | none => stMoved
  let sale : Sale :=
    { saleId := saleId
      receiptNumber := receipt
      items := resolved.map fun lp => ⟨lp.1.productId, lp.1.quantity, lp.2.price, lp.1.discount⟩
      subtotal := (resolved.map fun lp =>
        (lp.1.quantity : Int) * lp.2.price - lp.1.discount).sum
      discount := p.discount
      total := total
      paymentMethod := p.paymentMethod
      amountPaid := paid
      change := change
      customerId := customer.map Customer.id }
  ({ stCredit with sales := stCredit.sales ++ [sale], receiptCounter := receipt }, sale)

/-- Modelled from the spec: the Checkout Transaction Engine (§4.1); the
server-side sales route invoked by `checkoutMutation` is not among the provided
sources. `commitOk = false` injects a storage fault at commit time (§7
`PersistenceFailure`). All validation precedes every effect, and the whole effect
is one atomic unit: any error produces no new state at all. -/
def checkout (commitOk : Bool) (st : StoreState) (p : SalePayload) :
    Except CheckoutError (StoreState × Sale) :=
  if p.items.isEmpty then Except.error (CheckoutError.validationError "empty cart")
  else
    match validateLines st p.items with
    | Except.error e => Except.error e
    | Except.ok resolved =>
      match checkPayment st p (cartTotal resolved p.discount) with
      | Except.error e => Except.error e
      | Except.ok customer =>
        if commitOk = false then Except.error CheckoutError.persistenceFailure
        else
          match applyLines st p.items with
          | Except.error e => Except.error e
          | Except.ok stMoved =>
            Except.ok (commitSale st stMoved p resolved (cartTotal resolved p.discount) customer)

/-- The state the system is left in after a checkout attempt: the committed new
state on success, the unchanged prior state when the transaction aborts (§4.1
failure semantics — an abort rolls back all of steps 1-4). -/
def checkoutState (commitOk : Bool) (st : StoreState) (p : SalePayload) : StoreState :=
  match checkout commitOk st p with
  | Except.ok (st', _) => st'
  | Except.error _ => st

/-- Whether a checkout attempt commits. -/
def checkoutSucceeds (commitOk : Bool) (st : StoreState) (p : SalePayload) : Bool :=
  match checkout commitOk st p with
  | Except.ok _ => true
  | Except.error _ => false

/-- Modelled from the spec: receipt numbering (§4.4) — generating `n` receipt
numbers from a counter value yields the next `n` counter values; generation is
serialized inside the atomic checkout unit, so concurrent requests observe
distinct counter states. -/
def genReceipts (start n : Nat) : List Nat :=
  List.range' (start + 1) n

/-- Every persisted sale carries a receipt number that is unique among all sales
and bounded by the counter (the invariant behind receipt uniqueness). -/
def receiptsOk (st : StoreState) : Prop :=
  (st.sales.map Sale.receiptNumber).Nodup ∧
  ∀ s ∈ st.sales, s.receiptNumber ≤ st.receiptCounter

/-- Product on-hand quantities are all non-negative (spec §3 invariant). -/
def stockNonneg (st : StoreState) : Prop :=
  ∀ p ∈ st.products, 0 ≤ p.stockQuantity

/-- Product ids are pairwise distinct (the catalog's primary-key constraint). -/
def productIdsNodup (st : StoreState) : Prop :=
  (st.products.map Product.id).Nodup

instance (st : StoreState) : Decidable (receiptsOk st) := by
  unfold receiptsOk
  infer_instance

instance (st : StoreState) : Decidable (stockNonneg st) := by
  unfold stockNonneg
  infer_instance

instance (st : StoreState) : Decidable (productIdsNodup st) := by
  unfold productIdsNodup
  infer_instance

/-! ## Concrete scenario fixtures (spec §8) -/

/-- Scenario A/B/C/D product: price 10, five on hand. -/
def productA : Product := ⟨1, 10, 5, true⟩

/-- Scenario B customer: balance 0, limit 50. -/
def customerB : Customer := ⟨1, 0, 50, true⟩

/-- Scenario C customer: balance 40, limit 50. -/
def customerC : Customer := ⟨1, 40, 50, true⟩

/-- Scenario A state: just `productA`. -/
def stateA : StoreState := ⟨[productA], [], [], [], [], 0⟩

/-- Scenario B state: `productA` and `customerB`. -/
def stateB : StoreState := ⟨[productA], [customerB], [], [], [], 0⟩

/-- Scenario C state: `productA` and `customerC`. -/
def stateC : StoreState := ⟨[productA], [customerC], [], [], [], 0⟩

/-- Scenario D state: the product with only three on hand. -/
def stateD : StoreState := ⟨[⟨1, 10, 3, true⟩], [], [], [], [], 0⟩

/-- Scenario A payload: two units of `productA`, cash, 25 tendered. -/
def payloadA : SalePayload := ⟨[⟨1, 2, 0⟩], PaymentMethod.cash, some 25, 0, none⟩

/-- Scenario B/C payload: same cart on credit for customer 1 (the page sends
`amountPaid = 0` for credit). -/
def payloadB : SalePayload := ⟨[⟨1, 2, 0⟩], PaymentMethod.credit, some 0, 0, some 1⟩

/-- Scenario D payload: ten units requested. -/
def payloadD : SalePayload := ⟨[⟨1, 10, 0⟩], PaymentMethod.cash, some 100, 0, none⟩

/-! ## Helper lemmas about the engine -/

theorem checkoutState_eq_of_error {ck : Bool} {st : StoreState} {p : SalePayload}
    {e : CheckoutError} (h : checkout ck st p = Except.error e) :
    checkoutState ck st p = st := by
  unfold checkoutState
  rw [h]

theorem checkout_empty {ck : Bool} {st : StoreState} {p : SalePayload}
    (h : p.items = []) :
    checkout ck st p = Except.error (CheckoutError.validationError "empty cart") := by
  simp [checkout, h]

theorem checkout_error_of_validateLines (ck : Bool) {st : StoreState}
    {p : SalePayload} {e : CheckoutError} (hne : p.items.isEmpty = false)
    (h : validateLines st p.items = Except.error e) :
    checkout ck st p = Except.error e := by
  simp [checkout, hne, h]

theorem checkout_error_of_checkPayment (ck : Bool) {st : StoreState}
    {p : SalePayload} {resolved : List (SaleLineInput × Product)} {e : CheckoutError}
    (hne : p.items.isEmpty = false)
    (hv : validateLines st p.items = Except.ok resolved)
    (hp : checkPayment st p (cartTotal resolved p.discount) = Except.error e) :
    checkout ck st p = Except.error e := by
  simp [checkout, hne, hv, hp]

theorem checkout_commit_fault {st : StoreState} {p : SalePayload}
    {resolved : List (SaleLineInput × Product)} {customer : Option Customer}
    (hne : p.items.isEmpty = false)
    (hv : validateLines st p.items = Except.ok resolved)
    (hp : checkPayment st p (cartTotal resolved p.discount) = Except.ok customer) :
    checkout false st p = Except.error CheckoutError.persistenceFailure := by
  simp [checkout, hne, hv, hp]

theorem checkout_ok_elim {ck : Bool} {st : StoreState} {p : SalePayload}
    {st' : StoreState} {sale : Sale}
    (h : checkout ck st p = Except.ok (st', sale)) :
    ∃ resolved customer stMoved,
      p.items.isEmpty = false ∧
      validateLines st p.items = Except.ok resolved ∧
      checkPayment st p (cartTotal resolved p.discount) = Except.ok customer ∧
      ck = true ∧
      applyLines st p.items = Except.ok stMoved ∧
      commitSale st stMoved p resolved (cartTotal resolved p.discount) customer
        = (st', sale) := by
  unfold checkout at h
  by_cases hemp : p.items.isEmpty
  · rw [if_pos hemp] at h
    exact absurd h (by simp)
  · rw [if_neg hemp] at h
    cases heqv : validateLines st p.items with
    | error e => rw [heqv] at h; exact absurd h (by simp)
    | ok resolved =>
      rw [heqv] at h
      dsimp only at h
      cases heqp : checkPayment st p (cartTotal resolved p.discount) with
      | error e => rw [heqp] at h; exact absurd h (by simp)
      | ok customer =>
        rw [heqp] at h
        dsimp only at h
        cases hck : ck with
        | false =>
          rw [hck] at h
          exact absurd h (by simp)
        | true =>
          rw [hck] at h
          rw [if_neg (by simp)] at h
          cases heqa : applyLines st p.items with
          | error e => rw [heqa] at h; exact absurd h (by simp)
          | ok stMoved =>
            rw [heqa] at h
            dsimp only at h
            refine ⟨resolved, customer, stMoved, ?_, rfl, heqp, rfl, rfl, ?_⟩
            · simpa using hemp
            · simpa using h

theorem validateLines_ok_forall {st : StoreState} {ls : List SaleLineInput}
    {rs : List (SaleLineInput × Product)}
    (h : validateLines st ls = Except.ok rs) :
    ∀ l ∈ ls, ∃ pr, validateLine st l = Except.ok pr := by
  induction ls generalizing rs with
  | nil => intro l hl; cases hl
  | cons a t ih =>
    unfold validateLines at h
    split at h
    · exact absurd h (by simp)
    next pr heq1 =>
      split at h
      · exact absurd h (by simp)
      next ps heq2 =>
        intro l hl
        rcases List.mem_cons.mp hl with rfl | hl
        · exact ⟨pr, heq1⟩
        · exact ih heq2 l hl

theorem validateLine_ok_elim {st : StoreState} {l : SaleLineInput} {pr : Product}
    (h : validateLine st l = Except.ok pr) :
    findProduct st l.productId = some pr ∧ pr.isActive = true ∧
      l.quantity ≠ 0 ∧ (l.quantity : Int) ≤ pr.stockQuantity := by
  unfold validateLine at h
  split at h
  · exact absurd h (by simp)
  next p heq =>
    split at h
    · exact absurd h (by simp)
    next hact =>
      split at h
      · exact absurd h (by simp)
      next hqty =>
        split at h
        · exact absurd h (by simp)
        next hstock =>
          have : p = pr := by simpa using h
          subst this
          refine ⟨heq, ?_, hqty, by omega⟩
          cases hpa : p.isActive
          · exact absurd hpa hact
          · rfl

theorem find?_product_unique {st : StoreState} {pid : Nat} {p : Product}
    (hnd : productIdsNodup st) (h : findProduct st pid = some p) :
    ∀ x ∈ st.products, x.id = pid → x = p := by
  intro x hx hxid
  have hpmem : p ∈ st.products := List.mem_of_find?_eq_some h
  have hpid : p.id = pid := by simpa using List.find?_some h
  exact List.inj_on_of_nodup_map hnd hx hpmem (by rw [hxid, hpid])

theorem adjustQuantity_ids (ps : List Product) (pid : Nat) (delta : Int) :
    (adjustQuantity ps pid delta).map Product.id = ps.map Product.id := by
  unfold adjustQuantity
  induction ps with
  | nil => rfl
  | cons a t ih =>
    simp only [List.map_cons, ih]
    by_cases h : a.id == pid <;> simp [h]

theorem postMovement_preserves {st : StoreState} {pid : Nat}
    {dir : MovementDirection} {qty : Nat} {reason : MovementReason}
    {st' : StoreState} (h : postMovement st pid dir qty reason = Except.ok st') :
    st'.sales = st.sales ∧ st'.receiptCounter = st.receiptCounter ∧
    st'.customers = st.customers ∧ st'.creditTxs = st.creditTxs ∧
    st'.products.map Product.id = st.products.map Product.id := by
  unfold postMovement at h
  cases hf : findProduct st pid with
  | none => rw [hf] at h; exact absurd h (by simp)
  | some p =>
    rw [hf] at h
    dsimp only at h
    cases dir with
    | dirIn =>
      dsimp only at h
      injection h with h'
      subst h'
      exact ⟨rfl, rfl, rfl, rfl, adjustQuantity_ids _ _ _⟩
    | dirOut =>
      dsimp only at h
      split at h
      · exact absurd h (by simp)
      · injection h with h'
        subst h'
        exact ⟨rfl, rfl, rfl, rfl, adjustQuantity_ids _ _ _⟩

theorem postMovement_nonneg {st : StoreState} {pid : Nat}
    {dir : MovementDirection} {qty : Nat} {reason : MovementReason}
    {st' : StoreState} (hnd : productIdsNodup st) (hnn : stockNonneg st)
    (h : postMovement st pid dir qty reason = Except.ok st') :
    stockNonneg st' ∧ productIdsNodup st' := by
  have hids : st'.products.map Product.id = st.products.map Product.id :=
    (postMovement_preserves h).2.2.2.2
  constructor
  · unfold postMovement at h
    cases hf : findProduct st pid with
    | none => rw [hf] at h; exact absurd h (by simp)
    | some p =>
      rw [hf] at h
      dsimp only at h
      cases dir with
      | dirIn =>
        dsimp only at h
        injection h with h'
        subst h'
        intro x hx
        unfold adjustQuantity at hx
        rcases List.mem_map.mp hx with ⟨y, hy, rfl⟩
        have hynn := hnn y hy
        by_cases hid : y.id == pid <;> simp [hid] <;> omega
      | dirOut =>
        dsimp only at h
        split at h
        · exact absurd h (by simp)
        next hguard =>
          injection h with h'
          subst h'
          intro x hx
          unfold adjustQuantity at hx
          rcases List.mem_map.mp hx with ⟨y, hy, rfl⟩
          have hynn := hnn y hy
          by_cases hid : y.id == pid
          · have hy_eq : y = p :=
              find?_product_unique hnd hf y hy (by simpa using hid)
            subst hy_eq
            simp [hid]
            omega
          · simp [hid]
            exact hynn
  · unfold productIdsNodup
    rw [hids]
    exact hnd

theorem applyLines_preserves {ls : List SaleLineInput} {st st' : StoreState}
    (h : applyLines st ls = Except.ok st') :
    st'.sales = st.sales ∧ st'.receiptCounter = st.receiptCounter ∧
    st'.customers = st.customers ∧ st'.creditTxs = st.creditTxs := by
  induction ls generalizing st with
  | nil =>
    unfold applyLines at h
    injection h with h'
    subst h'
    exact ⟨rfl, rfl, rfl, rfl⟩
  | cons a t ih =>
    unfold applyLines at h
    cases hp : postMovement st a.productId MovementDirection.dirOut a.quantity
        MovementReason.sale with
    | error e => rw [hp] at h; exact absurd h (by simp)
    | ok st1 =>
      rw [hp] at h
      dsimp only at h
      have h1 := postMovement_preserves hp
      have h2 := ih h
      exact ⟨h2.1.trans h1.1, h2.2.1.trans h1.2.1, h2.2.2.1.trans h1.2.2.1,
        h2.2.2.2.trans h1.2.2.2.1⟩

theorem applyLines_nonneg {ls : List SaleLineInput} {st st' : StoreState}
    (hnd : productIdsNodup st) (hnn : stockNonneg st)
    (h : applyLines st ls = Except.ok st') :
    stockNonneg st' ∧ productIdsNodup st' := by
  induction ls generalizing st with
  | nil =>
    unfold applyLines at h
    injection h with h'
    subst h'
    exact ⟨hnn, hnd⟩
  | cons a t ih =>
    unfold applyLines at h
    cases hp : postMovement st a.productId MovementDirection.dirOut a.quantity
        MovementReason.sale with
    | error e => rw [hp] at h; exact absurd h (by simp)
    | ok st1 =>
      rw [hp] at h
      dsimp only at h
      have h1 := postMovement_nonneg hnd hnn hp
      exact ih h1.2 h1.1 h

theorem postTransaction_preserves (st : StoreState) (c : Customer)
    (t : CreditTxType) (amount : Int) (saleId : Option Nat) :
    (postTransaction st c t amount saleId).sales = st.sales ∧
    (postTransaction st c t amount saleId).receiptCounter = st.receiptCounter ∧
    (postTransaction st c t amount saleId).products = st.products ∧
    (postTransaction st c t amount saleId).movements = st.movements :=
  ⟨rfl, rfl, rfl, rfl⟩

/-- Identifies a confirm-payment outcome that fires the POST /sales request. -/
def isSubmit : ConfirmResult → Bool
  | ConfirmResult.submit _ => true
  | ConfirmResult.toastError _ => false

theorem isSubmit_customer_irrelevant (items : List CartItem) (discount : Int)
    (ap : Option Int) (pm : PaymentMethod) (cust : Option Customer)
    (hpm : pm ≠ PaymentMethod.credit) :
    isSubmit (handleConfirmPayment items discount ap pm cust)
      = isSubmit (handleConfirmPayment items discount ap pm none) := by
  unfold handleConfirmPayment
  rw [if_neg hpm, if_neg hpm]
  cases ap with
  | none => rfl
  | some paid =>
    dsimp only
    by_cases h : paid < getTotal items discount
    · rw [if_pos h, if_pos h]
    · rw [if_neg h, if_neg h]
      rfl

theorem commitSale_fst_products (st stMoved : StoreState) (p : SalePayload)
    (resolved : List (SaleLineInput × Product)) (total : Int)
    (customer : Option Customer) :
    ((commitSale st stMoved p resolved total customer).1).products
      = stMoved.products := by
  cases customer <;> simp [commitSale, postTransaction]

theorem commitSale_fst_sales (st stMoved : StoreState) (p : SalePayload)
    (resolved : List (SaleLineInput × Product)) (total : Int)
    (customer : Option Customer) :
    ((commitSale st stMoved p resolved total customer).1).sales
      = stMoved.sales ++ [(commitSale st stMoved p resolved total customer).2] := by
  cases customer <;> simp [commitSale, postTransaction]

theorem commitSale_fst_counter (st stMoved : StoreState) (p : SalePayload)
    (resolved : List (SaleLineInput × Product)) (total : Int)
    (customer : Option Customer) :
    ((commitSale st stMoved p resolved total customer).1).receiptCounter
      = st.receiptCounter + 1 := by
  cases customer <;> simp [commitSale, postTransaction]

theorem commitSale_snd_receipt (st stMoved : StoreState) (p : SalePayload)
    (resolved : List (SaleLineInput × Product)) (total : Int)
    (customer : Option Customer) :
    ((commitSale st stMoved p resolved total customer).2).receiptNumber
      = st.receiptCounter + 1 := by
  simp [commitSale]

/-- The empty-cart payload used by witnesses. -/
def emptyPayload : SalePayload := ⟨[], PaymentMethod.cash, some 0, 0, none⟩

/-! ## Claim theorems -/

/-- C8: a checkout with an empty cart is rejected before any write occurs: the
POS page refuses with a toast and never opens the payment modal (so no request is
submitted), and the engine refuses an empty-items payload with a ValidationError,
creating no Sale, StockMovement or CreditTransaction — the state is unchanged. -/
theorem empty_cart_rejected (discount : Int) (ck : Bool) (st : StoreState)
    (p : SalePayload) (hp : p.items = []) :
    handleCheckout [] discount = CheckoutClick.toastError "Cart is empty" ∧
    checkout ck st p = Except.error (CheckoutError.validationError "empty cart") ∧
    checkoutState ck st p = st :=
  ⟨rfl, checkout_empty hp, checkoutState_eq_of_error (checkout_empty hp)⟩

/-- Witness for `empty_cart_rejected` on the scenario-A state. -/
theorem empty_cart_rejected_witness :
    handleCheckout [] 0 = CheckoutClick.toastError "Cart is empty" ∧
    checkout true stateA emptyPayload
      = Except.error (CheckoutError.validationError "empty cart") ∧
    checkoutState true stateA emptyPayload = stateA :=
  empty_cart_rejected 0 true stateA emptyPayload rfl

/-- C7: confirming a credit payment with no customer selected is rejected with a
toast before anything is submitted; whether a non-credit confirmation submits does
not depend on the selected customer (a customer is required exactly for credit);
and the engine rejects a credit payload without a customer id with
CustomerRequired, leaving the state unchanged. -/
theorem customer_required_for_credit (items : List CartItem) (discount : Int)
    (ap : Option Int) (pm : PaymentMethod) (cust : Option Customer) (ck : Bool)
    (st : StoreState) (p : SalePayload)
    (hpm : pm ≠ PaymentMethod.credit)
    (hpc : p.paymentMethod = PaymentMethod.credit)
    (hcid : p.customerId = none) (hne : p.items.isEmpty = false) :
    handleConfirmPayment items discount ap PaymentMethod.credit none
      = ConfirmResult.toastError "Please select a customer for credit payment" ∧
    isSubmit (handleConfirmPayment items discount ap pm cust)
      = isSubmit (handleConfirmPayment items discount ap pm none) ∧
    (∀ resolved, validateLines st p.items = Except.ok resolved →
      checkout ck st p = Except.error CheckoutError.customerRequired ∧
      checkoutState ck st p = st) := by
  refine ⟨rfl, isSubmit_customer_irrelevant items discount ap pm cust hpm, ?_⟩
  intro resolved hres
  have hcp : checkPayment st p (cartTotal resolved p.discount)
      = Except.error CheckoutError.customerRequired := by
    unfold checkPayment
    rw [if_pos hpc, hcid]
  have herr := checkout_error_of_checkPayment ck hne hres hcp
  exact ⟨herr, checkoutState_eq_of_error herr⟩

/-- Witness for `customer_required_for_credit`: cash confirmation with and
without a customer, and the scenario-B payload stripped of its customer id. -/
theorem customer_required_for_credit_witness :
    handleConfirmPayment [⟨productA, 2, 0⟩] 0 (some 25) PaymentMethod.credit none
      = ConfirmResult.toastError "Please select a customer for credit payment" ∧
    isSubmit (handleConfirmPayment [⟨productA, 2, 0⟩] 0 (some 25)
        PaymentMethod.cash (some customerB))
      = isSubmit (handleConfirmPayment [⟨productA, 2, 0⟩] 0 (some 25)
        PaymentMethod.cash none) ∧
    (∀ resolved, validateLines stateB
        (SalePayload.items ⟨[⟨1, 2, 0⟩], PaymentMethod.credit, some 0, 0, none⟩)
        = Except.ok resolved →
      checkout true stateB ⟨[⟨1, 2, 0⟩], PaymentMethod.credit, some 0, 0, none⟩
        = Except.error CheckoutError.customerRequired ∧
      checkoutState true stateB ⟨[⟨1, 2, 0⟩], PaymentMethod.credit, some 0, 0, none⟩
        = stateB) :=
  customer_required_for_credit [⟨productA, 2, 0⟩] 0 (some 25) PaymentMethod.cash
    (some customerB) true stateB ⟨[⟨1, 2, 0⟩], PaymentMethod.credit, some 0, 0, none⟩
    (by decide) rfl rfl rfl

/-- C6: for a non-credit checkout the tendered amount must cover the total: a
non-numeric or insufficient `amountPaid` is refused by the POS page with a toast
(nothing submitted), a sufficient one is submitted; and the engine rejects a
non-credit payload whose `amountPaid` is missing or below the computed total with
InsufficientPayment(total, amountPaid), leaving the state unchanged. -/
theorem insufficient_payment_rejected (items : List CartItem) (discount : Int)
    (ap : Option Int) (pm : PaymentMethod) (cust : Option Customer) (ck : Bool)
    (st : StoreState) (p : SalePayload)
    (resolved : List (SaleLineInput × Product))
    (hpm : pm ≠ PaymentMethod.credit)
    (hppm : p.paymentMethod ≠ PaymentMethod.credit)
    (hne : p.items.isEmpty = false)
    (hres : validateLines st p.items = Except.ok resolved) :
    (ap = none → handleConfirmPayment items discount ap pm cust
      = ConfirmResult.toastError "Insufficient payment amount") ∧
    (∀ paid, ap = some paid → paid < getTotal items discount →
      handleConfirmPayment items discount ap pm cust
        = ConfirmResult.toastError "Insufficient payment amount") ∧
    (∀ paid, ap = some paid → getTotal items discount ≤ paid →
      handleConfirmPayment items discount ap pm cust
        = ConfirmResult.submit (checkoutPayload items pm ap discount cust)) ∧
    ((p.amountPaid = none ∨
        ∃ paid, p.amountPaid = some paid ∧ paid < cartTotal resolved p.discount) →
      checkout ck st p = Except.error
        (CheckoutError.insufficientPayment (cartTotal resolved p.discount) p.amountPaid) ∧
      checkoutState ck st p = st) := by
  refine ⟨?_, ?_, ?_, ?_⟩
  · rintro rfl
    unfold handleConfirmPayment
    rw [if_neg hpm]
  · rintro paid rfl hlt
    unfold handleConfirmPayment
    rw [if_neg hpm]
    dsimp only
    rw [if_pos hlt]
  · rintro paid rfl hge
    unfold handleConfirmPayment
    rw [if_neg hpm]
    dsimp only
    rw [if_neg (not_lt.mpr hge)]
  · intro hbad
    have hcp : checkPayment st p (cartTotal resolved p.discount)
        = Except.error (CheckoutError.insufficientPayment
            (cartTotal resolved p.discount) p.amountPaid) := by
      unfold checkPayment
      rw [if_neg hppm]
      rcases hbad with hnone | ⟨paid, hsome, hlt⟩
      · rw [hnone]
      · rw [hsome]
        dsimp only
        rw [if_pos hlt]
    have herr := checkout_error_of_checkPayment ck hne hres hcp
    exact ⟨herr, checkoutState_eq_of_error herr⟩

/-- Witness for `insufficient_payment_rejected` on the scenario-A fixtures with
15 tendered against a total of 20. -/
theorem insufficient_payment_rejected_witness :
    ((some 15 : Option Int) = none →
      handleConfirmPayment [⟨productA, 2, 0⟩] 0 (some 15) PaymentMethod.cash none
        = ConfirmResult.toastError "Insufficient payment amount") ∧
    (∀ paid, (some 15 : Option Int) = some paid →
      paid < getTotal [⟨productA, 2, 0⟩] 0 →
      handleConfirmPayment [⟨productA, 2, 0⟩] 0 (some 15) PaymentMethod.cash none
        = ConfirmResult.toastError "Insufficient payment amount") ∧
    (∀ paid, (some 15 : Option Int) = some paid →
      getTotal [⟨productA, 2, 0⟩] 0 ≤ paid →
      handleConfirmPayment [⟨productA, 2, 0⟩] 0 (some 15) PaymentMethod.cash none
        = ConfirmResult.submit
            (checkoutPayload [⟨productA, 2, 0⟩] PaymentMethod.cash (some 15) 0 none)) ∧
    ((SalePayload.amountPaid ⟨[⟨1, 2, 0⟩], PaymentMethod.cash, some 15, 0, none⟩ = none ∨
        ∃ paid,
          SalePayload.amountPaid ⟨[⟨1, 2, 0⟩], PaymentMethod.cash, some 15, 0, none⟩
              = some paid ∧
            paid < cartTotal [(⟨1, 2, 0⟩, productA)]
              (SalePayload.discount ⟨[⟨1, 2, 0⟩], PaymentMethod.cash, some 15, 0, none⟩)) →
      checkout true stateA ⟨[⟨1, 2, 0⟩], PaymentMethod.cash, some 15, 0, none⟩
        = Except.error (CheckoutError.insufficientPayment
            (cartTotal [(⟨1, 2, 0⟩, productA)]
              (SalePayload.discount ⟨[⟨1, 2, 0⟩], PaymentMethod.cash, some 15, 0, none⟩))
            (SalePayload.amountPaid ⟨[⟨1, 2, 0⟩], PaymentMethod.cash, some 15, 0, none⟩)) ∧
      checkoutState true stateA ⟨[⟨1, 2, 0⟩], PaymentMethod.cash, some 15, 0, none⟩
        = stateA) :=
  insufficient_payment_rejected [⟨productA, 2, 0⟩] 0 (some 15) PaymentMethod.cash
    none true stateA ⟨[⟨1, 2, 0⟩], PaymentMethod.cash, some 15, 0, none⟩
    [(⟨1, 2, 0⟩, productA)] (by decide) (by decide) rfl (by decide)

/-- C3: for a credit checkout with a selected customer, a positive credit limit
that `currentBalance + total` would exceed is rejected with a toast and nothing is
submitted; a zero (unlimited) limit or a sum within the limit passes the check and
the payload is submitted; and on the scenario-C fixtures (balance 40, limit 50,
total 20) the engine rejects with CreditLimitExceeded(50, 40, 20) and changes no
stock and writes no ledger entries — the state is unchanged. -/
theorem credit_limit_enforced (items : List CartItem) (discount : Int)
    (ap : Option Int) (c : Customer) (ck : Bool) :
    (0 < c.creditLimit → c.creditLimit < c.creditBalance + getTotal items discount →
      handleConfirmPayment items discount ap PaymentMethod.credit (some c)
        = ConfirmResult.toastError "Credit limit exceeded") ∧
    (c.creditLimit = 0 ∨ c.creditBalance + getTotal items discount ≤ c.creditLimit →
      handleConfirmPayment items discount ap PaymentMethod.credit (some c)
        = ConfirmResult.submit
            (checkoutPayload items PaymentMethod.credit ap discount (some c))) ∧
    (checkout ck stateC payloadB
      = Except.error (CheckoutError.creditLimitExceeded 50 40 20) ∧
      checkoutState ck stateC payloadB = stateC) := by
  refine ⟨?_, ?_, ?_⟩
  · intro h1 h2
    unfold handleConfirmPayment
    rw [if_pos rfl]
    dsimp only
    rw [if_pos ⟨h1, h2⟩]
  · intro h
    unfold handleConfirmPayment
    rw [if_pos rfl]
    dsimp only
    rw [if_neg ?hcond]
    case hcond =>
      rintro ⟨hl, hlt⟩
      rcases h with h0 | hle <;> omega
  · have herr : checkout ck stateC payloadB
        = Except.error (CheckoutError.creditLimitExceeded 50 40 20) :=
      checkout_error_of_checkPayment ck rfl
        (show validateLines stateC payloadB.items
            = Except.ok [(⟨1, 2, 0⟩, productA)] by decide)
        (show checkPayment stateC payloadB
            (cartTotal [(⟨1, 2, 0⟩, productA)] payloadB.discount)
            = Except.error (CheckoutError.creditLimitExceeded 50 40 20) by decide)
    exact ⟨herr, checkoutState_eq_of_error herr⟩

/-- Witness for `credit_limit_enforced` on the scenario-C customer (balance 40,
limit 50) and cart total 20. -/
theorem credit_limit_enforced_witness :
    (0 < customerC.creditLimit →
      customerC.creditLimit < customerC.creditBalance + getTotal [⟨productA, 2, 0⟩] 0 →
      handleConfirmPayment [⟨productA, 2, 0⟩] 0 (some 0) PaymentMethod.credit
          (some customerC)
        = ConfirmResult.toastError "Credit limit exceeded") ∧
    (customerC.creditLimit = 0 ∨
        customerC.creditBalance + getTotal [⟨productA, 2, 0⟩] 0 ≤ customerC.creditLimit →
      handleConfirmPayment [⟨productA, 2, 0⟩] 0 (some 0) PaymentMethod.credit
          (some customerC)
        = ConfirmResult.submit
            (checkoutPayload [⟨productA, 2, 0⟩] PaymentMethod.credit (some 0) 0
              (some customerC))) ∧
    (checkout true stateC payloadB
      = Except.error (CheckoutError.creditLimitExceeded 50 40 20) ∧
      checkoutState true stateC payloadB = stateC) :=
  credit_limit_enforced [⟨productA, 2, 0⟩] 0 (some 0) customerC true

/-- C2: checkout is atomic — every failing attempt, including a storage fault
injected after all validation has passed, leaves the state exactly as it was: no
Sale, StockMovement or CreditTransaction from the attempt is observable, and a
validated attempt whose commit faults surfaces PersistenceFailure. -/
theorem checkout_atomic (ck : Bool) (st : StoreState) (p : SalePayload) :
    (∀ e, checkout ck st p = Except.error e → checkoutState ck st p = st) ∧
    (checkoutSucceeds true st p = true →
      checkout false st p = Except.error CheckoutError.persistenceFailure ∧
      checkoutState false st p = st) := by
  refine ⟨fun e he => checkoutState_eq_of_error he, fun hs => ?_⟩
  unfold checkoutSucceeds at hs
  cases hok : checkout true st p with
  | error e =>
    rw [hok] at hs
    exact absurd hs (by simp)
  | ok r =>
    obtain ⟨st', sale⟩ := r
    obtain ⟨resolved, customer, stMoved, hne, hres, hpay, -, -, -⟩ :=
      checkout_ok_elim hok
    have herr := checkout_commit_fault hne hres hpay
    exact ⟨herr, checkoutState_eq_of_error herr⟩

/-- Witness for `checkout_atomic`: the scenario-A checkout validates and commits,
and the same attempt against a faulting store rolls back completely. -/
theorem checkout_atomic_witness :
    checkout false stateA payloadA = Except.error CheckoutError.persistenceFailure ∧
    checkoutState false stateA payloadA = stateA :=
  (checkout_atomic true stateA payloadA).2 (by decide)

/-- C5: every committed sale persists `amountPaid = 0` and `change = 0` when paid
on credit, and `change = max(amountPaid - total, 0)` otherwise; scenario A (total
20, 25 tendered in cash) commits with change 5, and scenario B (same cart on
credit) commits with change 0 and posts the total as a purchase
CreditTransaction with the new balance 20. -/
theorem sale_change_correct (ck : Bool) (st : StoreState) (p : SalePayload) :
    (∀ st' sale, checkout ck st p = Except.ok (st', sale) →
      (p.paymentMethod = PaymentMethod.credit →
        sale.amountPaid = 0 ∧ sale.change = 0) ∧
      (p.paymentMethod ≠ PaymentMethod.credit →
        sale.amountPaid = p.amountPaid.getD 0 ∧
        sale.change = max (sale.amountPaid - sale.total) 0) ∧
      sale ∈ st'.sales) ∧
    ((checkout true stateA payloadA).toOption.map (fun r => (r.2.total, r.2.change))
      = some (20, 5)) ∧
    ((checkout true stateB payloadB).toOption.map
        (fun r => (r.2.amountPaid, r.2.change,
          r.1.creditTxs.map fun t => (t.ctType, t.amount, t.balanceAfter)))
      = some (0, 0, [(CreditTxType.purchase, 20, 20)])) := by
  refine ⟨?_, by decide, by decide⟩
  intro st' sale hok
  obtain ⟨resolved, customer, stMoved, hne, hres, hpay, hck, happ, hcs⟩ :=
    checkout_ok_elim hok
  have hsale : (commitSale st stMoved p resolved (cartTotal resolved p.discount)
      customer).2 = sale := congrArg Prod.snd hcs
  have hst : (commitSale st stMoved p resolved (cartTotal resolved p.discount)
      customer).1 = st' := congrArg Prod.fst hcs
  subst hsale
  subst hst
  refine ⟨?_, ?_, ?_⟩
  · intro hc
    exact ⟨by simp [commitSale, hc], by simp [commitSale, hc]⟩
  · intro hc
    exact ⟨by simp [commitSale, hc], by simp [commitSale, hc]⟩
  · rw [commitSale_fst_sales]
    exact List.mem_append_right _ (List.mem_singleton_self _)

/-- Witness for `sale_change_correct`, instantiated on the scenario-A fixtures. -/
theorem sale_change_correct_witness :
    (∀ st' sale, checkout true stateA payloadA = Except.ok (st', sale) →
      (payloadA.paymentMethod = PaymentMethod.credit →
        sale.amountPaid = 0 ∧ sale.change = 0) ∧
      (payloadA.paymentMethod ≠ PaymentMethod.credit →
        sale.amountPaid = payloadA.amountPaid.getD 0 ∧
        sale.change = max (sale.amountPaid - sale.total) 0) ∧
      sale ∈ st'.sales) ∧
    ((checkout true stateA payloadA).toOption.map (fun r => (r.2.total, r.2.change))
      = some (20, 5)) ∧
    ((checkout true stateB payloadB).toOption.map
        (fun r => (r.2.amountPaid, r.2.change,
          r.1.creditTxs.map fun t => (t.ctType, t.amount, t.balanceAfter)))
      = some (0, 0, [(CreditTxType.purchase, 20, 20)])) :=
  sale_change_correct true stateA payloadA

/-- C1: no oversell and non-negative stock — a committed checkout implies every
cart line requested at most the on-hand quantity; any stock/validation failure
(first failing line wins) aborts the checkout with that error and leaves the
state unchanged; non-negativity of every on-hand quantity is preserved both by
the Stock Ledger primitive and by a committed checkout; and scenario D (10
requested, 3 on hand) fails with InsufficientStock(1, 10, 3) and no effects. -/
theorem checkout_no_oversell (ck : Bool) (st : StoreState) (p : SalePayload)
    (hnd : productIdsNodup st) (hnn : stockNonneg st) :
    (∀ st' sale, checkout ck st p = Except.ok (st', sale) →
      (∀ l ∈ p.items, ∃ pr, findProduct st l.productId = some pr ∧
        (l.quantity : Int) ≤ pr.stockQuantity) ∧
      stockNonneg st') ∧
    (∀ pid dir qty reason st2,
      postMovement st pid dir qty reason = Except.ok st2 → stockNonneg st2) ∧
    (∀ e, p.items.isEmpty = false → validateLines st p.items = Except.error e →
      checkout ck st p = Except.error e ∧ checkoutState ck st p = st) ∧
    (checkout ck stateD payloadD
      = Except.error (CheckoutError.insufficientStock 1 10 3) ∧
      checkoutState ck stateD payloadD = stateD) := by
  refine ⟨?_, ?_, ?_, ?_⟩
  · intro st' sale hok
    obtain ⟨resolved, customer, stMoved, hne, hres, hpay, hck, happ, hcs⟩ :=
      checkout_ok_elim hok
    constructor
    · intro l hl
      obtain ⟨pr, hpr⟩ := validateLines_ok_forall hres l hl
      obtain ⟨hfind, -, -, hle⟩ := validateLine_ok_elim hpr
      exact ⟨pr, hfind, hle⟩
    · have hmove := applyLines_nonneg hnd hnn happ
      have hst : (commitSale st stMoved p resolved (cartTotal resolved p.discount)
          customer).1 = st' := congrArg Prod.fst hcs
      have hprod : st'.products = stMoved.products := by
        rw [← hst]
        exact commitSale_fst_products st stMoved p resolved _ customer
      intro x hx
      rw [hprod] at hx
      exact hmove.1 x hx
  · intro pid dir qty reason st2 hpost
    exact (postMovement_nonneg hnd hnn hpost).1
  · intro e hne hval
    have herr := checkout_error_of_validateLines ck hne hval
    exact ⟨herr, checkoutState_eq_of_error herr⟩
  · have herr : checkout ck stateD payloadD
        = Except.error (CheckoutError.insufficientStock 1 10 3) :=
      checkout_error_of_validateLines ck rfl
        (show validateLines stateD payloadD.items
            = Except.error (CheckoutError.insufficientStock 1 10 3) by decide)
    exact ⟨herr, checkoutState_eq_of_error herr⟩

/-- Witness for `checkout_no_oversell` on the scenario-D fixtures. -/
theorem checkout_no_oversell_witness :
    (∀ st' sale, checkout true stateD payloadD = Except.ok (st', sale) →
      (∀ l ∈ payloadD.items, ∃ pr, findProduct stateD l.productId = some pr ∧
        (l.quantity : Int) ≤ pr.stockQuantity) ∧
      stockNonneg st') ∧
    (∀ pid dir qty reason st2,
      postMovement stateD pid dir qty reason = Except.ok st2 → stockNonneg st2) ∧
    (∀ e, payloadD.items.isEmpty = false →
      validateLines stateD payloadD.items = Except.error e →
      checkout true stateD payloadD = Except.error e ∧
      checkoutState true stateD payloadD = stateD) ∧
    (checkout true stateD payloadD
      = Except.error (CheckoutError.insufficientStock 1 10 3) ∧
      checkoutState true stateD payloadD = stateD) :=
  checkout_no_oversell true stateD payloadD (by decide) (by decide)

/-- C4: receipt numbers are unique across the lifetime of the system and
time-sortable — a state whose sales carry pairwise-distinct, counter-bounded
receipt numbers keeps that property across any committed checkout (so any two
distinct committed sales differ in receipt number), and generating N receipt
numbers from the serialized counter yields N pairwise-distinct, strictly
increasing values. -/
theorem receipt_numbers_unique (st : StoreState) (p : SalePayload)
    (hro : receiptsOk st) :
    (checkoutSucceeds true st p = true → receiptsOk (checkoutState true st p)) ∧
    (∀ start n, (genReceipts start n).Nodup ∧
      List.Pairwise (· < ·) (genReceipts start n) ∧
      (genReceipts start n).length = n) := by
  constructor
  · intro hs
    unfold checkoutSucceeds at hs
    cases hok : checkout true st p with
    | error e =>
      rw [hok] at hs
      exact absurd hs (by simp)
    | ok r =>
      obtain ⟨st', sale⟩ := r
      have hcs : checkoutState true st p = st' := by
        unfold checkoutState
        rw [hok]
      rw [hcs]
      obtain ⟨resolved, customer, stMoved, hne, hres, hpay, -, happ, hcseq⟩ :=
        checkout_ok_elim hok
      have hst : (commitSale st stMoved p resolved (cartTotal resolved p.discount)
          customer).1 = st' := congrArg Prod.fst hcseq
      have hsaleq : (commitSale st stMoved p resolved (cartTotal resolved p.discount)
          customer).2 = sale := congrArg Prod.snd hcseq
      have hsales : st'.sales = stMoved.sales ++ [sale] := by
        rw [← hst, ← hsaleq]
        exact commitSale_fst_sales st stMoved p resolved _ customer
      have hcounter : st'.receiptCounter = st.receiptCounter + 1 := by
        rw [← hst]
        exact commitSale_fst_counter st stMoved p resolved _ customer
      have hrn : sale.receiptNumber = st.receiptCounter + 1 := by
        rw [← hsaleq]
        exact commitSale_snd_receipt st stMoved p resolved _ customer
      have hms : stMoved.sales = st.sales := (applyLines_preserves happ).1
      unfold receiptsOk
      rw [hsales, hms, hcounter]
      constructor
      · rw [List.map_append, List.map_singleton, hrn]
        rw [List.nodup_append]
        refine ⟨hro.1, List.nodup_singleton _, ?_⟩
        intro a ha hb
        have h1 : a ≤ st.receiptCounter := by
          rcases List.mem_map.mp ha with ⟨s0, hs0, rfl⟩
          exact hro.2 s0 hs0
        have h2 : a = st.receiptCounter + 1 := List.mem_singleton.mp hb
        omega
      · intro s0 hs0
        rcases List.mem_append.mp hs0 with hmem | hmem
        · have := hro.2 s0 hmem
          omega
        · rw [List.mem_singleton.mp hmem, hrn]
  · intro start n
    refine ⟨List.nodup_range' _ _, List.pairwise_lt_range' _ _, ?_⟩
    simp [genReceipts]

/-- Witness for `receipt_numbers_unique` on the scenario-A fixtures. -/
theorem receipt_numbers_unique_witness :
    (checkoutSucceeds true stateA payloadA = true →
      receiptsOk (checkoutState true stateA payloadA)) ∧
    (∀ start n, (genReceipts start n).Nodup ∧
      List.Pairwise (· < ·) (genReceipts start n) ∧
      (genReceipts start n).length = n) :=
  receipt_numbers_unique stateA payloadA (by decide)

/-- C9: recording a credit payment larger than the customer's balance is
accepted, not rejected — the Credits page refuses only a non-numeric or
non-positive amount and submits any positive one; the server accepts any
positive amount for a known customer and posts a `payment` transaction whose
resulting balance is `max(balance - amount, 0)`, so an overpayment silently
clamps the cached balance and the recorded `balanceAfter` to zero. -/
theorem overpayment_clamped (c c2 : Customer) (ref : String) (st : StoreState)
    (cid : Nat) (amount : Int)
    (hfind : findCustomer st cid = some c2) (hpos : 0 < amount) :
    (handleRecordPayment (some c) none ref
      = RecordPaymentResult.toastError "Please enter a valid amount") ∧
    (∀ a : Int, a ≤ 0 → handleRecordPayment (some c) (some a) ref
      = RecordPaymentResult.toastError "Please enter a valid amount") ∧
    (handleRecordPayment (some c) (some amount) ref
      = RecordPaymentResult.submitPayment c.id amount
          (if ref = "" then none else some ref)) ∧
    (payCredit st cid amount
      = Except.ok (postTransaction st c2 CreditTxType.payment amount none)) ∧
    (∀ x ∈ (postTransaction st c2 CreditTxType.payment amount none).customers,
      x.id = c2.id → x.creditBalance = max (c2.creditBalance - amount) 0) ∧
    (c2.creditBalance ≤ amount →
      ((postTransaction st c2 CreditTxType.payment amount none).creditTxs.getLast?).map
        CreditTransaction.balanceAfter = some 0) := by
  refine ⟨rfl, ?_, ?_, ?_, ?_, ?_⟩
  · intro a ha
    unfold handleRecordPayment
    dsimp only
    rw [if_pos ha]
  · unfold handleRecordPayment
    dsimp only
    rw [if_neg (not_le.mpr hpos)]
  · unfold payCredit
    rw [if_neg (not_le.mpr hpos), hfind]
  · intro x hx hid
    unfold postTransaction at hx
    dsimp only at hx
    rcases List.mem_map.mp hx with ⟨y, hy, rfl⟩
    by_cases hb : y.id == c2.id
    · simp [hb]
    · exfalso
      rw [if_neg (by simpa using hb)] at hid
      exact (by simpa using hb : ¬ y.id = c2.id) hid
  · intro hle
    unfold postTransaction
    dsimp only
    rw [List.getLast?_concat]
    simp only [Option.map_some']
    congr 1
    omega

/-- Witness for `overpayment_clamped`: paying 100 against a balance of 40
(scenario-C customer) clamps the balance to zero. -/
theorem overpayment_clamped_witness :
    (handleRecordPayment (some customerC) none ""
      = RecordPaymentResult.toastError "Please enter a valid amount") ∧
    (∀ a : Int, a ≤ 0 → handleRecordPayment (some customerC) (some a) ""
      = RecordPaymentResult.toastError "Please enter a valid amount") ∧
    (handleRecordPayment (some customerC) (some 100) ""
      = RecordPaymentResult.submitPayment customerC.id 100
          (if ("" : String) = "" then none else some "")) ∧
    (payCredit stateC 1 100
      = Except.ok (postTransaction stateC customerC CreditTxType.payment 100 none)) ∧
    (∀ x ∈ (postTransaction stateC customerC CreditTxType.payment 100 none).customers,
      x.id = customerC.id →
      x.creditBalance = max (customerC.creditBalance - 100) 0) ∧
    (customerC.creditBalance ≤ 100 →
      ((postTransaction stateC customerC CreditTxType.payment 100
          none).creditTxs.getLast?).map CreditTransaction.balanceAfter = some 0) :=
  overpayment_clamped customerC customerC "" stateC 1 100 (by decide) (by decide)

end Vendoa
